import Mathlib

/-!
Shallow embedding of the dicom-viewer cataloging and rendering core:

* db_handler.py — tag extraction (get_str / get_int), the get-or-create
  catalog resolution for Patient / Study / Series, the insert-if-absent for
  Image, and the ingestion chain save_metadata (modelled here from the point
  where the dataset has been decoded; file reading is outside the model).
* dicom_server.py — the storage directory naming of handle_store.
* dicom_viewer.py — resolve_dicom_path_for_viewer, the traversal guard of
  image_data / image_metadata, the window determination and the windowing
  transform of image_data.

Python values relevant to these code paths are modelled by a small value
type (None, str, int, MultiValue of scalars); the record store is a state
of four in-memory tables plus the serial counters and the log stream; float
arithmetic of the pixel pipeline is modelled over exact rationals (exact at
every input considered here); paths are modelled lexically over a
filesystem without symbolic links.
-/

namespace DicomViewer

/-- Python scalar values as exposed by the decoder on the code paths
modelled here: None, a str (pydicom UID and text values), or an int. -/
inductive Scalar where
  | null
  | str (s : String)
  | int (n : Int)
deriving DecidableEq

/-- A decoded element value: a scalar, or a DICOM multi-value (a flat list
of scalars, as pydicom MultiValue is). -/
inductive PyVal where
  | scalar (v : Scalar)
  | multi (vs : List Scalar)
deriving DecidableEq

/-- A decoded dataset: association of tag keyword to element value; an
absent tag has no entry. Attribute assignment (ds.Path = p) prepends a
binding, and lookup takes the first binding. -/
abbrev Dataset := List (String × PyVal)

/-- Python str.strip(): whitespace removed from both ends. -/
def pyStrip (s : String) : String :=
  String.mk (((s.data.dropWhile Char.isWhitespace).reverse.dropWhile Char.isWhitespace).reverse)

/-- Python str() of a scalar. -/
def pyStr : Scalar → String
  | .null => "None"
  | .str s => s
  | .int n => toString n

def digitsAux : List Char → Nat → Option Nat
  | [], acc => some acc
  | c :: cs, acc => if c.isDigit then digitsAux cs (10 * acc + (c.toNat - 48)) else none

/-- A nonempty run of decimal digits, as a Nat. -/
def parsePyNat : List Char → Option Nat
  | [] => none
  | cs => digitsAux cs 0

/-- Python int(str): optional surrounding whitespace, an optional sign, then
decimal digits (digit-group underscores are not modelled). -/
def parsePyInt (s : String) : Option Int :=
  match (pyStrip s).data with
  | '-' :: rest => (parsePyNat rest).map (fun n => -(n : Int))
  | '+' :: rest => (parsePyNat rest).map (fun n => (n : Int))
  | cs => (parsePyNat cs).map (fun n => (n : Int))

/-- Python int() coercion of a scalar: int(None) raises TypeError, int(str)
parses decimal or raises ValueError, int(int) is the int itself. The raising
outcomes are the none cases (get_int catches them). -/
def pyToInt : Scalar → Option Int
  | .null => none
  | .str s => parsePyInt s
  | .int n => some n

/-- db_handler.get_str (lines 18-28): None yields the empty string; a
MultiValue yields its first element's str() form stripped, or the empty
string when the MultiValue is empty; any other value yields its str() form
stripped. -/
def get_str : Option PyVal → String
  | none => ""
  | some (.scalar .null) => ""
  | some (.multi []) => ""
  | some (.multi (v :: _)) => pyStrip (pyStr v)
  | some (.scalar v) => pyStrip (pyStr v)

/-- db_handler.get_int (lines 30-42): None yields 0; a MultiValue yields its
first element coerced by int(), or 0 when empty; any other value is coerced
by int(); a ValueError or TypeError from int() is caught and yields 0. -/
def get_int : Option PyVal → Int
  | none => 0
  | some (.scalar v) => (pyToInt v).getD 0
  | some (.multi []) => 0
  | some (.multi (v :: _)) => (pyToInt v).getD 0

/-- Dataset.get(keyword, None): the first binding wins, absent gives none
(Python None). -/
def dsGet : Dataset → String → Option PyVal
  | [], _ => none
  | (t, v) :: rest, tag => if t = tag then some v else dsGet rest tag

/-- The failure outcomes surfaced by the modelled code paths. -/
inductive DicomError where
  | attributeError
  | uniqueViolation
  | pathTraversal
deriving DecidableEq

/-- str(ds.<tag>) attribute access: an AttributeError when the tag is
absent, otherwise the str() form of the value (a multi-value renders its
elements joined; no tag read this way in the source is multi-valued). -/
def dsAttrStr (ds : Dataset) (tag : String) : Except DicomError String :=
  match dsGet ds tag with
  | none => .error .attributeError
  | some (.scalar v) => .ok (pyStr v)
  | some (.multi vs) => .ok (String.intercalate ", " (vs.map pyStr))

/-! Paths. dicom_viewer.py fixes RECEIVED_DICOM_ROOT at import time as
realpath(join(BASE_DIR, received_dicom)); BASE_DIR is represented here by
the concrete directory /app. -/

def RECEIVED_DICOM_ROOT : String := "/app/received_dicom"

def splitSlashAux : List Char → List Char → List String
  | cur, [] => [String.mk cur.reverse]
  | cur, c :: rest =>
      if c = '/' then String.mk cur.reverse :: splitSlashAux [] rest
      else splitSlashAux (c :: cur) rest

/-- Path components: split on the separator, then drop empty and "."
components, as the lexical part of os.path.realpath normalization does. -/
def splitPath (s : String) : List String :=
  (splitSlashAux [] s.data).filter (fun c => !(c == "" || c == "."))

/-- Lexical ".." resolution, left to right; a ".." at the root stays at the
root (realpath("/..") is "/"). -/
def normSegsAux (acc : List String) : List String → List String
  | [] => acc.reverse
  | c :: rest => if c = ".." then normSegsAux acc.tail rest else normSegsAux (c :: acc) rest

def canonSegs (s : String) : List String := normSegsAux [] (splitPath s)

def joinSegs : List String → String
  | [] => ""
  | [x] => x
  | x :: y :: xs => x ++ "/" ++ joinSegs (y :: xs)

/-- os.path.realpath of an absolute path, modelled lexically over a
filesystem without symbolic links: normalize "", "." and ".." components. -/
def realpathAbs (s : String) : String := "/" ++ joinSegs (canonSegs s)

/-- Python str.startswith(p). -/
def pyStartsWith (s p : String) : Bool := List.isPrefixOf p.data s.data

/-- os.path.isabs on POSIX. -/
def pyIsAbs (s : String) : Bool :=
  match s.data with
  | '/' :: _ => true
  | _ => false

/-- dicom_viewer.resolve_dicom_path_for_viewer (lines 333-351): an absolute
reference is canonicalized directly; a relative one is joined under the
storage root and canonicalized. -/
def resolve_dicom_path_for_viewer (db_path : String) : String :=
  if pyIsAbs db_path then realpathAbs db_path
  else realpathAbs (RECEIVED_DICOM_ROOT ++ "/" ++ db_path)

/-- The traversal guard shared by the image_data (lines 361-366) and
image_metadata (lines 517-522) routes: resolve the reference, then abort 403
(PathTraversal) unless the resolved path startswith the root string. In the
source the guard runs before os.path.exists and before dcmread, so a
rejected request performs no read of the referenced file. -/
def viewerPathGuard (filename_from_db : String) : Except DicomError String :=
  let full := resolve_dicom_path_for_viewer filename_from_db
  if pyStartsWith full RECEIVED_DICOM_ROOT then .ok full else .error .pathTraversal

/-- Claim-side meaning of a canonical path lying within the storage root:
the root itself, or a path below it (the root followed by a separator). -/
def withinRoot (p : String) : Prop :=
  p = RECEIVED_DICOM_ROOT ∨ pyStartsWith p (RECEIVED_DICOM_ROOT ++ "/") = true

instance (p : String) : Decidable (withinRoot p) := by
  unfold withinRoot; infer_instance

/-! Pixel pipeline pieces of dicom_viewer.image_data. Samples are modelled
over exact rationals; every arithmetic step of the concrete inputs below is
exact in float32 as well. -/

/-- One sample through the windowing transform (image_data lines 423-431):
for positive width, clip to the window and rescale the clipped range onto
0..255; otherwise binarize at the level. -/
def applyWindow (wl ww x : ℚ) : ℚ :=
  if ww > 0 then
    let minv := wl - ww / 2
    let maxv := wl + ww / 2
    let c := min (max x minv) maxv
    ((c - minv) / (maxv - minv)) * 255
  else if wl ≤ x then 255 else 0

/-- np.clip(·, 0, 255).astype(np.uint8) (line 433): clip, then truncate
toward zero — the floor, on the clipped nonnegative range. -/
def toUint8 (x : ℚ) : ℕ := (⌊min (max x 0) 255⌋).toNat

def renderPixel (wl ww x : ℚ) : ℕ := toUint8 (applyWindow wl ww x)

def windowArray (wl ww : ℚ) (a : List (List ℚ)) : List (List ℕ) :=
  a.map (fun row => row.map (renderPixel wl ww))

def listMin (p0 : ℚ) (ps : List ℚ) : ℚ := ps.foldl min p0
def listMax (p0 : ℚ) (ps : List ℚ) : ℚ := ps.foldl max p0

/-- The priority of a present query parameter over the dataset value
(image_data lines 413-414): x if arg else default. -/
def overrideOr (caller dflt : Option ℚ) : Option ℚ :=
  match caller with
  | some v => some v
  | none => dflt

/-- Window determination of image_data (lines 404-421): the caller override
when the query parameter is present (already parsed to a rational here),
else the dataset's own value (its first element when multi-valued, already
reduced to an Option here); when either of the two is still missing, both
are recomputed from the rescaled samples, modelled as a nonempty list with
head p0 and tail ps. -/
def effectiveWindow (callerWl callerWw dsWl dsWw : Option ℚ) (p0 : ℚ) (ps : List ℚ) : ℚ × ℚ :=
  let wl : Option ℚ := overrideOr callerWl dsWl
  let ww : Option ℚ := overrideOr callerWw dsWw
  match wl, ww with
  | some l, some w => (l, w)
  | _, _ =>
    let mn := listMin p0 ps
    let mx := listMax p0 ps
    ((mn + mx) / 2, if mx - mn > 0 then mx - mn else 1)

/-! Storage layout of dicom_server.handle_store. -/

/-- Python ch.isalnum() restricted to ASCII letters and digits (non-ASCII
alphanumerics are not modelled; no claim input uses them). -/
def pyIsAlnum (c : Char) : Bool := c.isAlpha || c.isDigit

/-- handle_store lines 55-56: keep only alphanumerics, "-" and "_", then
strip. -/
def sanitizeAccession (s : String) : String :=
  pyStrip (String.mk (s.data.filter (fun c => pyIsAlnum c || c = '-' || c = '_')))

/-- handle_store directory naming (lines 52-62): AccessionNumber read with
the literal default UNKNOWN_ACCESSION when the tag is absent, sanitized; on
an empty sanitized result fall back to str(ds.SOPInstanceUID). -/
def directoryFor (ds : Dataset) : Except DicomError String :=
  let accession := get_str (some ((dsGet ds "AccessionNumber").getD (.scalar (.str "UNKNOWN_ACCESSION"))))
  let safe := sanitizeAccession accession
  if safe = "" then dsAttrStr ds "SOPInstanceUID" else .ok safe

/-- Claim-side directory rule in the words of the spec (section 4.4): take
the AccessionNumber (the empty string when absent), strip every disallowed
character, and fall back to the raw SOP instance identifier when the result
is empty. Stated only to be compared with directoryFor. -/
def specDirectoryFor (ds : Dataset) : Except DicomError String :=
  let safe := sanitizeAccession (get_str (dsGet ds "AccessionNumber"))
  if safe = "" then dsAttrStr ds "SOPInstanceUID" else .ok safe

/-! The record store and the catalog resolvers of db_handler.py. -/

structure PatientRow where
  prkey : Nat
  patient_id : String
  patient_name : String
  patient_birthdate : String
  patient_sex : String
  character_set : String
  patient_path : String
deriving DecidableEq

structure StudyRow where
  prkey : Nat
  study_instance_uid : String
  study_id : String
  study_date : String
  study_time : String
  study_description : String
  accession_number : String
  refer_physician : String
  modalities_in_study : String
  series_in_study : String
  images_in_study : String
  station_name : String
  institutional_department_name : String
  patient_age : String
  patient_weight : String
  character_set : String
  study_path : String
  patient_prkey : Nat
  institution_name : String
  frames_in_study : String
  study_comments : String
  study_status : Int
  study_token : String
deriving DecidableEq

structure SeriesRow where
  prkey : Nat
  series_instance_uid : String
  series_number : String
  series_date : String
  series_time : String
  series_description : String
  modality : String
  patient_position : String
  contrast_bolus_agent : String
  manufacturer : String
  model_name : String
  body_part_examined : String
  protocol_name : String
  images_in_series : String
  frame_of_reference_uid : String
  localizer_instance_uid : String
  user_comments : String
  series_priority : Int
  series_rate : Int
  series_review_date : String
  series_review_time : String
  series_insertion_date : String
  character_set : String
  series_path : String
  study_instance_uid : String
  study_prkey : Nat
  frames_in_series : String
deriving DecidableEq

/-- The image INSERT names no generated key (its serial stays store-side and
is never read back), so the row carries none. -/
structure ImageRow where
  sop_instance_uid : String
  sop_class_uid : String
  image_type : String
  image_number : String
  image_date : String
  image_time : String
  acquisition_date : String
  acquisition_time : String
  acquisition_number : String
  number_of_frames : String
  samples_per_pixel : String
  photometric_interpretation : String
  bits_allocated : Int
  rows : Int
  columns : Int
  image_path_name : String
  patient_id : String
  series_prkey : Nat
deriving DecidableEq

/-- Record-store state: the four tables in insertion order, the serial that
each RETURNING prkey draws from, and the log stream of warnings/errors. -/
structure DB where
  patients : List PatientRow
  studies : List StudyRow
  series : List SeriesRow
  images : List ImageRow
  nextPatientKey : Nat
  nextStudyKey : Nat
  nextSeriesKey : Nat
  log : List String
deriving DecidableEq

/-- Patient natural key (db_handler lines 78-81): PatientID via get_str,
falling back to UNKNOWN_PATIENT_ + str(ds.SOPInstanceUID) — with a warning
— when empty; the attribute access raises when SOPInstanceUID is absent. -/
def patientNaturalKey (ds : Dataset) : Except DicomError (String × List String) :=
  let pid := get_str (dsGet ds "PatientID")
  if pid = "" then
    match dsAttrStr ds "SOPInstanceUID" with
    | .error e => .error e
    | .ok sop => .ok ("UNKNOWN_PATIENT_" ++ sop,
        ["PatientID empty, using fallback: UNKNOWN_PATIENT_" ++ sop])
  else .ok (pid, [])

/-- Study natural key (db_handler lines 109-112), same synthesis shape. -/
def studyNaturalKey (ds : Dataset) : Except DicomError (String × List String) :=
  let suid := get_str (dsGet ds "StudyInstanceUID")
  if suid = "" then
    match dsAttrStr ds "SOPInstanceUID" with
    | .error e => .error e
    | .ok sop => .ok ("UNKNOWN_STUDY_" ++ sop,
        ["StudyInstanceUID empty, using fallback: UNKNOWN_STUDY_" ++ sop])
  else .ok (suid, [])

/-- Series natural key (db_handler lines 171-174), same synthesis shape. -/
def seriesNaturalKey (ds : Dataset) : Except DicomError (String × List String) :=
  let suid := get_str (dsGet ds "SeriesInstanceUID")
  if suid = "" then
    match dsAttrStr ds "SOPInstanceUID" with
    | .error e => .error e
    | .ok sop => .ok ("UNKNOWN_SERIES_" ++ sop,
        ["SeriesInstanceUID empty, using fallback: UNKNOWN_SERIES_" ++ sop])
  else .ok (suid, [])

/-- The AccessionNumber stored by a new Study row (db_handler lines
128-133): the extracted value, or the possibly synthesized
StudyInstanceUID when it is empty. -/
def accessionOf (ds : Dataset) (suid : String) : String :=
  let a := get_str (dsGet ds "AccessionNumber")
  if a = "" then suid else a

/-- The warning logged alongside the AccessionNumber fallback. -/
def accessionLogOf (ds : Dataset) (suid : String) : List String :=
  if get_str (dsGet ds "AccessionNumber") = "" then
    ["AccessionNumber empty, using StudyInstanceUID as fallback: " ++ suid]
  else []

/-- The Patient row inserted by get_or_create_patient (lines 90-101);
get_str of the plain path string is str(path).strip(). -/
def mkPatientRow (ds : Dataset) (pid path : String) (key : Nat) : PatientRow :=
  { prkey := key
    patient_id := pid
    patient_name := get_str (dsGet ds "PatientName")
    patient_birthdate := get_str (dsGet ds "PatientBirthDate")
    patient_sex := get_str (dsGet ds "PatientSex")
    character_set := get_str (dsGet ds "SpecificCharacterSet")
    patient_path := pyStrip path }

/-- The Study row inserted by get_or_create_study (lines 121-163); status 0
and token none initialize the mutable administrative fields. -/
def mkStudyRow (ds : Dataset) (suid accession path : String) (ppk key : Nat) : StudyRow :=
  { prkey := key
    study_instance_uid := suid
    study_id := get_str (dsGet ds "StudyID")
    study_date := get_str (dsGet ds "StudyDate")
    study_time := get_str (dsGet ds "StudyTime")
    study_description := get_str (dsGet ds "StudyDescription")
    accession_number := accession
    refer_physician := get_str (dsGet ds "ReferringPhysicianName")
    modalities_in_study := get_str (dsGet ds "ModalitiesInStudy")
    series_in_study := get_str (dsGet ds "NumberOfStudyRelatedSeries")
    images_in_study := get_str (dsGet ds "NumberOfStudyRelatedInstances")
    station_name := get_str (dsGet ds "StationName")
    institutional_department_name := get_str (dsGet ds "InstitutionalDepartmentName")
    patient_age := get_str (dsGet ds "PatientAge")
    patient_weight := get_str (dsGet ds "PatientWeight")
    character_set := get_str (dsGet ds "SpecificCharacterSet")
    study_path := pyStrip path
    patient_prkey := ppk
    institution_name := get_str (dsGet ds "InstitutionName")
    frames_in_study := get_str (dsGet ds "NumberOfFrames")
    study_comments := get_str (dsGet ds "StudyComments")
    study_status := 0
    study_token := "none" }

/-- The Series row inserted by get_or_create_series (lines 183-226); the
localizer field records the current image's SOPInstanceUID, and the
denormalized study_instance_uid is re-extracted raw from the dataset. -/
def mkSeriesRow (ds : Dataset) (suid path : String) (spk key : Nat) : SeriesRow :=
  { prkey := key
    series_instance_uid := suid
    series_number := get_str (dsGet ds "SeriesNumber")
    series_date := get_str (dsGet ds "SeriesDate")
    series_time := get_str (dsGet ds "SeriesTime")
    series_description := get_str (dsGet ds "SeriesDescription")
    modality := get_str (dsGet ds "Modality")
    patient_position := get_str (dsGet ds "PatientPosition")
    contrast_bolus_agent := get_str (dsGet ds "ContrastBolusAgent")
    manufacturer := get_str (dsGet ds "Manufacturer")
    model_name := get_str (dsGet ds "ManufacturerModelName")
    body_part_examined := get_str (dsGet ds "BodyPartExamined")
    protocol_name := get_str (dsGet ds "ProtocolName")
    images_in_series := get_str (dsGet ds "NumberOfSeriesRelatedInstances")
    frame_of_reference_uid := get_str (dsGet ds "FrameOfReferenceUID")
    localizer_instance_uid := get_str (dsGet ds "SOPInstanceUID")
    user_comments := "none"
    series_priority := 0
    series_rate := 0
    series_review_date := "none"
    series_review_time := "none"
    series_insertion_date := "none"
    character_set := get_str (dsGet ds "SpecificCharacterSet")
    series_path := pyStrip path
    study_instance_uid := get_str (dsGet ds "StudyInstanceUID")
    study_prkey := spk
    frames_in_series := get_str (dsGet ds "NumberOfFrames") }

/-- The Image row inserted by save_image_metadata (lines 247-279); the
patient_prkey argument of the source function is never stored, and the path
comes from the Path attribute set by save_metadata. -/
def mkImageRow (ds : Dataset) (spk : Nat) : ImageRow :=
  { sop_instance_uid := get_str (dsGet ds "SOPInstanceUID")
    sop_class_uid := get_str (dsGet ds "SOPClassUID")
    image_type := get_str (dsGet ds "ImageType")
    image_number := get_str (dsGet ds "InstanceNumber")
    image_date := get_str (dsGet ds "ContentDate")
    image_time := get_str (dsGet ds "ContentTime")
    acquisition_date := get_str (dsGet ds "AcquisitionDate")
    acquisition_time := get_str (dsGet ds "AcquisitionTime")
    acquisition_number := get_str (dsGet ds "AcquisitionNumber")
    number_of_frames := get_str (dsGet ds "NumberOfFrames")
    samples_per_pixel := get_str (dsGet ds "SamplesPerPixel")
    photometric_interpretation := get_str (dsGet ds "PhotometricInterpretation")
    bits_allocated := get_int (dsGet ds "BitsAllocated")
    rows := get_int (dsGet ds "Rows")
    columns := get_int (dsGet ds "Columns")
    image_path_name := get_str (dsGet ds "Path")
    patient_id := get_str (dsGet ds "PatientID")
    series_prkey := spk }

/-- db_handler.get_or_create_patient (lines 73-102) as executed
single-threaded: between the SELECT and the INSERT the store does not
change, so the INSERT cannot hit the uniqueness constraint; the interleaved
variant below models the concurrent case. -/
def get_or_create_patient (ds : Dataset) (path : String) (db : DB) :
    Except DicomError (Nat × DB) :=
  match patientNaturalKey ds with
  | .error e => .error e
  | .ok (pid, lg) =>
    match db.patients.find? (fun r => r.patient_id == pid) with
    | some r => .ok (r.prkey, { db with log := db.log ++ lg })
    | none =>
      .ok (db.nextPatientKey,
        { db with
          patients := db.patients ++ [mkPatientRow ds pid path db.nextPatientKey]
          nextPatientKey := db.nextPatientKey + 1
          log := db.log ++ lg })

/-- db_handler.get_or_create_study (lines 104-164), single-threaded. -/
def get_or_create_study (ds : Dataset) (ppk : Nat) (path : String) (db : DB) :
    Except DicomError (Nat × DB) :=
  match studyNaturalKey ds with
  | .error e => .error e
  | .ok (suid, lg) =>
    match db.studies.find? (fun r => r.study_instance_uid == suid) with
    | some r => .ok (r.prkey, { db with log := db.log ++ lg })
    | none =>
      .ok (db.nextStudyKey,
        { db with
          studies := db.studies ++ [mkStudyRow ds suid (accessionOf ds suid) path ppk db.nextStudyKey]
          nextStudyKey := db.nextStudyKey + 1
          log := db.log ++ lg ++ accessionLogOf ds suid })

/-- db_handler.get_or_create_series (lines 166-227), single-threaded. -/
def get_or_create_series (ds : Dataset) (spk : Nat) (path : String) (db : DB) :
    Except DicomError (Nat × DB) :=
  match seriesNaturalKey ds with
  | .error e => .error e
  | .ok (suid, lg) =>
    match db.series.find? (fun r => r.series_instance_uid == suid) with
    | some r => .ok (r.prkey, { db with log := db.log ++ lg })
    | none =>
      .ok (db.nextSeriesKey,
        { db with
          series := db.series ++ [mkSeriesRow ds suid path spk db.nextSeriesKey]
          nextSeriesKey := db.nextSeriesKey + 1
          log := db.log ++ lg })

/-- db_handler.save_image_metadata (lines 229-279): an empty SOPInstanceUID
logs an error and returns without inserting and without raising; a row
already present for the identifier logs and returns; otherwise the row is
inserted. The patient_prkey parameter is accepted and never stored, as in
the source. -/
def save_image_metadata (ds : Dataset) (patient_prkey series_prkey : Nat) (db : DB) : DB :=
  let sop := get_str (dsGet ds "SOPInstanceUID")
  if sop = "" then
    { db with log := db.log ++ ["SOPInstanceUID empty, cannot save image metadata."] }
  else
    match db.images.find? (fun r => r.sop_instance_uid == sop) with
    | some _ => { db with log := db.log ++ ["Image already exists, no new insert: " ++ sop] }
    | none => { db with images := db.images ++ [mkImageRow ds series_prkey] }

/-- db_handler.save_metadata (lines 282-315) from the point where the file
has been decoded into ds0: set ds.Path to the relative path, then resolve
Patient, Study, Series in order and store the Image metadata. File lookup
and decoding, which precede this chain, are outside the model. -/
def ingest (ds0 : Dataset) (path : String) (db : DB) :
    Except DicomError (Nat × Nat × Nat × DB) :=
  let ds : Dataset := ("Path", PyVal.scalar (.str path)) :: ds0
  match get_or_create_patient ds path db with
  | .error e => .error e
  | .ok (pk, db1) =>
    match get_or_create_study ds pk path db1 with
    | .error e => .error e
    | .ok (stk, db2) =>
      match get_or_create_series ds stk path db2 with
      | .error e => .error e
      | .ok (sek, db3) => .ok (pk, stk, sek, save_image_metadata ds pk sek db3)

/-- Modelled from the spec: the record-store schema is not under src/, and
spec section 5 requires the store to enforce a uniqueness constraint on each
natural key; inserting a Patient row whose patient_id already exists
therefore fails with a uniqueness violation instead of storing a duplicate. -/
def insertPatientUnique (row : PatientRow) (db : DB) : Except DicomError DB :=
  match db.patients.find? (fun r => r.patient_id == row.patient_id) with
  | some _ => .error .uniqueViolation
  | none => .ok { db with patients := db.patients ++ [row], nextPatientKey := db.nextPatientKey + 1 }

/-- get_or_create_patient (db_handler lines 73-102) under a concurrent
writer: the SELECT observes dbSel, and the INSERT executes against dbIns,
the store state after a concurrent commit between the two statements. The
source wraps the INSERT in no handler, so a uniqueness violation raised by
the store propagates to the caller. -/
def get_or_create_patient_interleaved (ds : Dataset) (path : String) (dbSel dbIns : DB) :
    Except DicomError (Nat × DB) :=
  match patientNaturalKey ds with
  | .error e => .error e
  | .ok (pid, _lg) =>
    match dbSel.patients.find? (fun r => r.patient_id == pid) with
    | some r => .ok (r.prkey, dbSel)
    | none =>
      match insertPatientUnique (mkPatientRow ds pid path dbIns.nextPatientKey) dbIns with
      | .error e => .error e
      | .ok db2 => .ok (dbIns.nextPatientKey, db2)

/-- The study natural key as a plain function of the dataset, given the
str() form of its SOPInstanceUID; agrees with studyNaturalKey whenever the
attribute access succeeds. -/
def studyKeyOf (ds : Dataset) (sop : String) : String :=
  let s := get_str (dsGet ds "StudyInstanceUID")
  if s = "" then "UNKNOWN_STUDY_" ++ sop else s

/-! Concrete inputs used by the witnesses and counterexamples. -/

def dbEmpty : DB :=
  { patients := [], studies := [], series := [], images := []
    nextPatientKey := 0, nextStudyKey := 0, nextSeriesKey := 0, log := [] }

def firstOk (r : Except DicomError (Nat × Nat × Nat × DB)) : DB :=
  match r with
  | .ok x => x.2.2.2
  | .error _ => dbEmpty

/-- A well-formed dataset whose SOPInstanceUID is present but empty. -/
def dsC1 : Dataset :=
  [("PatientID", PyVal.scalar (.str "P1")),
   ("StudyInstanceUID", PyVal.scalar (.str "S1")),
   ("SeriesInstanceUID", PyVal.scalar (.str "R1")),
   ("SOPInstanceUID", PyVal.scalar (.str ""))]

def dbC1 : DB := firstOk (ingest dsC1 "q" dbEmpty)

/-- A fully identified dataset. -/
def dsC4 : Dataset :=
  [("PatientID", PyVal.scalar (.str "P4")),
   ("StudyInstanceUID", PyVal.scalar (.str "S4")),
   ("SeriesInstanceUID", PyVal.scalar (.str "R4")),
   ("SOPInstanceUID", PyVal.scalar (.str "U4"))]

def dbC4a : DB := firstOk (ingest dsC4 "q" dbEmpty)

/-- A dataset with SOPInstanceUID empty, for the idempotence edge case. -/
def dsC4x : Dataset :=
  [("PatientID", PyVal.scalar (.str "P5")),
   ("StudyInstanceUID", PyVal.scalar (.str "S5")),
   ("SeriesInstanceUID", PyVal.scalar (.str "R5")),
   ("SOPInstanceUID", PyVal.scalar (.str ""))]

def dbC4x1 : DB := firstOk (ingest dsC4x "q" dbEmpty)
def dbC4x2 : DB := firstOk (ingest dsC4x "q" dbC4x1)

/-- PatientID present but empty, AccessionNumber absent. -/
def dsC6 : Dataset :=
  [("PatientID", PyVal.scalar (.str "")),
   ("StudyInstanceUID", PyVal.scalar (.str "S6")),
   ("SeriesInstanceUID", PyVal.scalar (.str "R6")),
   ("SOPInstanceUID", PyVal.scalar (.str "U6"))]

def dbC6r : DB := firstOk (ingest dsC6 "q" dbEmpty)

/-- The dataset of the racing ingestion of C5. -/
def dsC5 : Dataset := [("PatientID", PyVal.scalar (.str "P1"))]

/-- The store state after the concurrent winner committed Patient P1. -/
def dbC5 : DB :=
  { dbEmpty with
    patients := [{ prkey := 7, patient_id := "P1", patient_name := "",
                   patient_birthdate := "", patient_sex := "",
                   character_set := "", patient_path := "" }] }

/-- AccessionNumber absent, SOPInstanceUID X. -/
def dsC8 : Dataset := [("SOPInstanceUID", PyVal.scalar (.str "X"))]

/-- AccessionNumber present but sanitizing to the empty string. -/
def dsC8b : Dataset :=
  [("AccessionNumber", PyVal.scalar (.str "###")),
   ("SOPInstanceUID", PyVal.scalar (.str "Y"))]

/-! Helper lemmas shared across the claims. -/

theorem toUint8_eval (q : ℚ) (n : ℕ) (h255 : q ≤ 255) (hl : (n : ℚ) ≤ q)
    (hu : q < (n : ℚ) + 1) : toUint8 q = n := by
  have h0 : (0 : ℚ) ≤ q := le_trans (Nat.cast_nonneg n) hl
  rw [toUint8, max_eq_left h0, min_eq_left h255]
  have hf : ⌊q⌋ = (n : ℤ) := by
    rw [Int.floor_eq_iff]
    constructor <;> push_cast <;> linarith
  rw [hf]
  exact Int.toNat_natCast n

theorem toUint8_255 : toUint8 255 = 255 :=
  toUint8_eval 255 255 le_rfl (by norm_num) (by norm_num)

theorem toUint8_0 : toUint8 0 = 0 :=
  toUint8_eval 0 0 (by norm_num) (by norm_num) (by norm_num)

/-- The binarization branch of the windowing transform, taken whenever the
width is not positive. -/
theorem applyWindow_nonpos (wl ww x : ℚ) (h : ¬ ww > 0) :
    applyWindow wl ww x = (if wl ≤ x then (255 : ℚ) else 0) := by
  simp only [applyWindow, if_neg h]

theorem renderPixel_nonpos (wl ww x : ℚ) (h : ¬ ww > 0) :
    renderPixel wl ww x = (if wl ≤ x then 255 else 0) := by
  rw [renderPixel, applyWindow_nonpos wl ww x h]
  by_cases hle : wl ≤ x
  · rw [if_pos hle, if_pos hle, toUint8_255]
  · rw [if_neg hle, if_neg hle, toUint8_0]

theorem splitPath_no_trivial (s : String) : ∀ c ∈ splitPath s, ¬ c = "." ∧ ¬ c = "" := by
  intro c hc
  have h := List.of_mem_filter hc
  simp only [Bool.not_eq_true', Bool.or_eq_false_iff, beq_eq_false_iff_ne, ne_eq] at h
  exact ⟨h.2, h.1⟩

theorem normSegsAux_good : ∀ l acc : List String,
    (∀ a ∈ acc, a ≠ ".." ∧ a ≠ "." ∧ a ≠ "") →
    (∀ c ∈ l, ¬ c = "." ∧ ¬ c = "") →
    ∀ seg ∈ normSegsAux acc l, seg ≠ ".." ∧ seg ≠ "." ∧ seg ≠ "" := by
  intro l
  induction l with
  | nil =>
    intro acc hacc _ seg hseg
    rw [normSegsAux] at hseg
    exact hacc seg (List.mem_reverse.mp hseg)
  | cons c rest ih =>
    intro acc hacc hl seg hseg
    rw [normSegsAux] at hseg
    by_cases hc : c = ".."
    · rw [if_pos hc] at hseg
      exact ih acc.tail (fun a ha => hacc a (List.mem_of_mem_tail ha))
        (fun d hd => hl d (List.mem_cons_of_mem _ hd)) seg hseg
    · rw [if_neg hc] at hseg
      refine ih (c :: acc) ?_ (fun d hd => hl d (List.mem_cons_of_mem _ hd)) seg hseg
      intro a ha
      rcases List.mem_cons.mp ha with rfl | ha2
      · exact ⟨hc, (hl a (List.mem_cons_self a rest)).1, (hl a (List.mem_cons_self a rest)).2⟩
      · exact hacc a ha2

/-! C7 — the tag extractors. -/

/-- C7: both extractors are total functions of the modelled value universe
(so no exception escapes), and they implement exactly the documented
mapping: get_str sends absent/None to the empty string, a multi-value to
its first element's stripped str() form (empty when the multi-value is
empty) and a scalar to its stripped str() form; get_int sends absent/None
and non-convertible values to 0, a multi-value to its first element coerced
by int() with 0 on failure, and an int scalar to itself. -/
theorem c7_extractors :
    (get_str none = "" ∧ get_str (some (PyVal.scalar .null)) = "" ∧
      (∀ s : String, get_str (some (PyVal.scalar (.str s))) = pyStrip s) ∧
      (∀ n : Int, get_str (some (PyVal.scalar (.int n))) = pyStrip (pyStr (.int n))) ∧
      get_str (some (PyVal.multi [])) = "" ∧
      (∀ (v : Scalar) (vs : List Scalar),
        get_str (some (PyVal.multi (v :: vs))) = pyStrip (pyStr v))) ∧
    (get_int none = 0 ∧ get_int (some (PyVal.scalar .null)) = 0 ∧
      (∀ n : Int, get_int (some (PyVal.scalar (.int n))) = n) ∧
      (∀ s : String, get_int (some (PyVal.scalar (.str s))) = (parsePyInt s).getD 0) ∧
      get_int (some (PyVal.multi [])) = 0 ∧
      (∀ (v : Scalar) (vs : List Scalar),
        get_int (some (PyVal.multi (v :: vs))) = (pyToInt v).getD 0)) :=
  ⟨⟨rfl, rfl, fun _ => rfl, fun _ => rfl, rfl, fun _ _ => rfl⟩,
   ⟨rfl, rfl, fun _ => rfl, fun _ => rfl, rfl, fun _ _ => rfl⟩⟩

/-! C10 — negative caller-supplied window width. -/

/-- C10: a width strictly below zero takes the same binarization branch as
width zero — samples at or above the level map to 255, the rest to 0 — and
never the linear branch; being a total function, the transform raises no
error on a negative width. -/
theorem c10_negative_width (wl ww x : ℚ) (h : ww < 0) :
    renderPixel wl ww x = renderPixel wl 0 x ∧
    renderPixel wl ww x = (if wl ≤ x then 255 else 0) := by
  have h1 := renderPixel_nonpos wl ww x (by linarith)
  have h0 := renderPixel_nonpos wl 0 x (by norm_num)
  exact ⟨h1.trans h0.symm, h1⟩

theorem c10_witness :
    renderPixel 128 (-5) 200 = renderPixel 128 0 200 ∧ renderPixel 128 (-5) 200 = 255 := by
  have h := c10_negative_width 128 (-5) 200 (by norm_num)
  refine ⟨h.1, ?_⟩
  rw [h.2, if_pos (by norm_num)]

/-! C3 — the windowing transform and the spec's round-trip example. -/

theorem renderPixel_example_0 : renderPixel 128 256 0 = 0 := by
  have ha : applyWindow 128 256 0 = 0 := by
    simp only [applyWindow, if_pos (by norm_num : (256 : ℚ) > 0)]
    norm_num [min_def, max_def]
  rw [renderPixel, ha, toUint8_0]

theorem renderPixel_example_100 : renderPixel 128 256 100 = 99 := by
  have ha : applyWindow 128 256 100 = 6375 / 64 := by
    simp only [applyWindow, if_pos (by norm_num : (256 : ℚ) > 0)]
    norm_num [min_def, max_def]
  rw [renderPixel, ha]
  exact toUint8_eval (6375 / 64) 99 (by norm_num) (by norm_num) (by norm_num)

theorem renderPixel_example_200 : renderPixel 128 256 200 = 199 := by
  have ha : applyWindow 128 256 200 = 6375 / 32 := by
    simp only [applyWindow, if_pos (by norm_num : (256 : ℚ) > 0)]
    norm_num [min_def, max_def]
  rw [renderPixel, ha]
  exact toUint8_eval (6375 / 32) 199 (by norm_num) (by norm_num) (by norm_num)

theorem renderPixel_example_255 : renderPixel 128 256 255 = 254 := by
  have ha : applyWindow 128 256 255 = 65025 / 256 := by
    simp only [applyWindow, if_pos (by norm_num : (256 : ℚ) > 0)]
    norm_num [min_def, max_def]
  rw [renderPixel, ha]
  exact toUint8_eval (65025 / 256) 254 (by norm_num) (by norm_num) (by norm_num)

/-- C3 counterexample: on the spec's own 2x2 example with level 128 and
width 256, the sample 255 is not preserved — the rescale factor is 255/256
and the uint8 cast truncates, so 255 maps to 254 (the full output being
[[0, 99], [199, 254]], not an array ending in 255). -/
theorem c3_counterexample :
    renderPixel 128 256 255 = 254 ∧ (254 : ℕ) ≠ 255 ∧
    windowArray 128 256 [[0, 100], [200, 255]] = [[0, 99], [199, 254]] := by
  refine ⟨renderPixel_example_255, by norm_num, ?_⟩
  simp only [windowArray, List.map_cons, List.map_nil, renderPixel_example_0,
    renderPixel_example_100, renderPixel_example_200, renderPixel_example_255]

/-- C3 amended: with width strictly positive the samples are clipped to
[level - width/2, level + width/2] and that clipped range is linearly
rescaled onto [0, 255] (the lower edge maps to 0, the upper edge to 255);
with width 0 the transform binarizes at the level; the result is clipped to
[0, 255] and truncated to an 8-bit integer. On the spec's 2x2 example with
level 128 and width 256 the output is [[0, 99], [199, 254]] — 0 is
preserved, while 255 lands at 254 because the rescale factor is 255/256 and
the cast truncates; with width 0 and level 128 the output is
[[0, 0], [255, 255]] as claimed. -/
theorem c3_amended :
    (∀ wl ww x : ℚ, 0 < ww → x ≤ wl - ww / 2 → renderPixel wl ww x = 0) ∧
    (∀ wl ww x : ℚ, 0 < ww → wl + ww / 2 ≤ x → renderPixel wl ww x = 255) ∧
    (∀ wl x : ℚ, renderPixel wl 0 x = if wl ≤ x then 255 else 0) ∧
    windowArray 128 256 [[0, 100], [200, 255]] = [[0, 99], [199, 254]] ∧
    windowArray 128 0 [[0, 100], [200, 255]] = [[0, 0], [255, 255]] := by
  refine ⟨?_, ?_, ?_, ?_, ?_⟩
  · intro wl ww x hww hx
    have hmm : wl - ww / 2 ≤ wl + ww / 2 := by linarith
    simp only [renderPixel, applyWindow, if_pos hww]
    rw [max_eq_right hx, min_eq_left hmm]
    simp only [sub_self, zero_div, zero_mul, toUint8_0]
  · intro wl ww x hww hx
    have hmm : wl - ww / 2 ≤ x := by linarith
    simp only [renderPixel, applyWindow, if_pos hww]
    rw [max_eq_left hmm, min_eq_right hx]
    have hne : wl + ww / 2 - (wl - ww / 2) ≠ 0 := by
      have : wl + ww / 2 - (wl - ww / 2) = ww := by ring
      rw [this]; exact ne_of_gt hww
    rw [div_self hne, one_mul, toUint8_255]
  · intro wl x
    exact renderPixel_nonpos wl 0 x (by norm_num)
  · simp only [windowArray, List.map_cons, List.map_nil, renderPixel_example_0,
      renderPixel_example_100, renderPixel_example_200, renderPixel_example_255]
  · have hb : ∀ x : ℚ, renderPixel 128 0 x = if (128 : ℚ) ≤ x then 255 else 0 :=
      fun x => renderPixel_nonpos 128 0 x (by norm_num)
    simp only [windowArray, List.map_cons, List.map_nil, hb]
    norm_num

theorem c3_witness :
    renderPixel 128 256 (-50) = 0 ∧ renderPixel 128 256 300 = 255 :=
  ⟨c3_amended.1 128 256 (-50) (by norm_num) (by norm_num),
   c3_amended.2.1 128 256 300 (by norm_num) (by norm_num)⟩

/-! C9 — window defaults replace both parameters when either is missing. -/

/-- C9: when, after the caller override and the dataset lookup, exactly one
of level and width is still missing, the resolved one is discarded too:
the effective pair is computed entirely from the samples — level the
midpoint of min and max, width their difference, or 1 when the samples are
constant. A caller-supplied level without a resolvable width therefore has
no effect on the output. -/
theorem c9_window_defaults (cwl cww dswl dsww : Option ℚ) (p0 : ℚ) (ps : List ℚ)
    (h : (overrideOr cwl dswl = none ∧ (overrideOr cww dsww).isSome = true) ∨
         ((overrideOr cwl dswl).isSome = true ∧ overrideOr cww dsww = none)) :
    effectiveWindow cwl cww dswl dsww p0 ps =
      ((listMin p0 ps + listMax p0 ps) / 2,
        if listMax p0 ps - listMin p0 ps > 0 then listMax p0 ps - listMin p0 ps else 1) := by
  rcases h with ⟨hwl, _⟩ | ⟨_, hww⟩
  · rcases hw : overrideOr cww dsww with _ | w <;>
      simp only [effectiveWindow, hwl, hw]
  · rcases hl : overrideOr cwl dswl with _ | l <;>
      simp only [effectiveWindow, hl, hww]

theorem c9_witness :
    effectiveWindow (some 10) none none none 0 [100] = (50, 100) := by
  have h := c9_window_defaults (some 10) none none none 0 [100] (Or.inr ⟨rfl, rfl⟩)
  rw [h]
  norm_num [listMin, listMax]

/-! C2 — the traversal guard of the rendering routes. -/

/-- C2 counterexample: the reference ../received_dicomEVIL/x.dcm contains a
.. segment whose canonical resolution escapes the storage root, yet the
guard accepts it — the prefix test is a plain string startswith without a
separator, so a sibling directory whose name extends the root's last
component passes. -/
theorem c2_counterexample :
    viewerPathGuard "../received_dicomEVIL/x.dcm" = .ok "/app/received_dicomEVIL/x.dcm" ∧
    resolve_dicom_path_for_viewer "../received_dicomEVIL/x.dcm" = "/app/received_dicomEVIL/x.dcm" ∧
    ¬ withinRoot "/app/received_dicomEVIL/x.dcm" :=
  ⟨by rfl, by rfl, by decide⟩

/-- C2 amended: both rendering routes canonicalize the reference first
(relative references joined under the root; "", "." and ".." segments all
resolved away, as the second conjunct states) and only then compare: if the
canonical path does not have the storage root as a string prefix, the
request fails with PathTraversal before any read of the referenced file.
Because the comparison is a bare string prefix with no separator, a
canonical path in a sibling directory whose name extends the root's last
component (received_dicomEVIL beside received_dicom) is accepted even
though it lies outside the root. -/
theorem c2_amended :
    (∀ ref : String,
      pyStartsWith (resolve_dicom_path_for_viewer ref) RECEIVED_DICOM_ROOT = false →
      viewerPathGuard ref = .error .pathTraversal) ∧
    (∀ s : String, ∀ seg ∈ canonSegs s, seg ≠ ".." ∧ seg ≠ "." ∧ seg ≠ "") := by
  constructor
  · intro ref h
    simp only [viewerPathGuard, h]
    rfl
  · intro s seg hseg
    exact normSegsAux_good (splitPath s) [] (by simp) (splitPath_no_trivial s) seg hseg

theorem c2_witness :
    viewerPathGuard "/etc/passwd" = .error .pathTraversal ∧ "x" ≠ ".." :=
  ⟨c2_amended.1 "/etc/passwd" (by decide),
   (c2_amended.2 "/app/a/../x" "x" (by decide)).1⟩

/-! Helper lemmas for the catalog resolvers. -/

theorem dsGet_cons_ne (t : String) (v : PyVal) (ds : Dataset) (tag : String)
    (h : ¬ t = tag) : dsGet ((t, v) :: ds) tag = dsGet ds tag := by
  simp [dsGet, h]

theorem dsGet_pathset (ds : Dataset) (p tag : String) (h : ¬ tag = "Path") :
    dsGet (("Path", PyVal.scalar (.str p)) :: ds) tag = dsGet ds tag :=
  dsGet_cons_ne "Path" _ ds tag (fun he => h he.symm)

theorem dsAttrStr_pathset (ds : Dataset) (p tag : String) (h : ¬ tag = "Path") :
    dsAttrStr (("Path", PyVal.scalar (.str p)) :: ds) tag = dsAttrStr ds tag := by
  unfold dsAttrStr
  rw [dsGet_pathset ds p tag h]

theorem patientNaturalKey_pathset (ds : Dataset) (p : String) :
    patientNaturalKey (("Path", PyVal.scalar (.str p)) :: ds) = patientNaturalKey ds := by
  unfold patientNaturalKey
  rw [dsGet_pathset ds p "PatientID" (by decide),
    dsAttrStr_pathset ds p "SOPInstanceUID" (by decide)]

theorem studyNaturalKey_pathset (ds : Dataset) (p : String) :
    studyNaturalKey (("Path", PyVal.scalar (.str p)) :: ds) = studyNaturalKey ds := by
  unfold studyNaturalKey
  rw [dsGet_pathset ds p "StudyInstanceUID" (by decide),
    dsAttrStr_pathset ds p "SOPInstanceUID" (by decide)]

theorem seriesNaturalKey_pathset (ds : Dataset) (p : String) :
    seriesNaturalKey (("Path", PyVal.scalar (.str p)) :: ds) = seriesNaturalKey ds := by
  unfold seriesNaturalKey
  rw [dsGet_pathset ds p "SeriesInstanceUID" (by decide),
    dsAttrStr_pathset ds p "SOPInstanceUID" (by decide)]

theorem accessionOf_pathset (ds : Dataset) (p suid : String) :
    accessionOf (("Path", PyVal.scalar (.str p)) :: ds) suid = accessionOf ds suid := by
  unfold accessionOf
  rw [dsGet_pathset ds p "AccessionNumber" (by decide)]

theorem accessionLogOf_pathset (ds : Dataset) (p suid : String) :
    accessionLogOf (("Path", PyVal.scalar (.str p)) :: ds) suid = accessionLogOf ds suid := by
  unfold accessionLogOf
  rw [dsGet_pathset ds p "AccessionNumber" (by decide)]

theorem sop_pathset (ds : Dataset) (p : String) :
    get_str (dsGet (("Path", PyVal.scalar (.str p)) :: ds) "SOPInstanceUID") =
      get_str (dsGet ds "SOPInstanceUID") := by
  rw [dsGet_pathset ds p "SOPInstanceUID" (by decide)]

/-- Everything get_or_create_patient guarantees on success: only the
patient table and the log change, the returned key designates a row of the
new state carrying the natural key, and the call either reused the first
matching row or appended the freshly built one. -/
theorem get_or_create_patient_spec {ds : Dataset} {path : String} {db : DB} {k : Nat}
    {db2 : DB} (h : get_or_create_patient ds path db = .ok (k, db2)) :
    ∃ K lg, patientNaturalKey ds = .ok (K, lg) ∧
      db2.studies = db.studies ∧ db2.series = db.series ∧ db2.images = db.images ∧
      db2.nextStudyKey = db.nextStudyKey ∧ db2.nextSeriesKey = db.nextSeriesKey ∧
      (∃ t, db2.log = db.log ++ t) ∧
      (∃ r, r ∈ db2.patients ∧ r.prkey = k ∧ r.patient_id = K) ∧
      ((db.patients.find? (fun r => r.patient_id == K) = none ∧
          db2.patients = db.patients ++ [mkPatientRow ds K path db.nextPatientKey] ∧
          k = db.nextPatientKey) ∨
        (∃ r, db.patients.find? (fun r => r.patient_id == K) = some r ∧ k = r.prkey ∧
          db2.patients = db.patients)) := by
  cases hk : patientNaturalKey ds with
  | error e => simp only [get_or_create_patient, hk] at h; simp at h
  | ok pr =>
    obtain ⟨K, lg⟩ := pr
    cases hf : db.patients.find? (fun r => r.patient_id == K) with
    | some r =>
      simp only [get_or_create_patient, hk, hf] at h
      simp only [Except.ok.injEq, Prod.mk.injEq] at h
      obtain ⟨hk1, hdb⟩ := h
      subst hk1; subst hdb
      exact ⟨K, lg, rfl, rfl, rfl, rfl, rfl, rfl, ⟨lg, rfl⟩,
        ⟨r, List.mem_of_find?_eq_some hf, rfl, by simpa using List.find?_some hf⟩,
        Or.inr ⟨r, hf, rfl, rfl⟩⟩
    | none =>
      simp only [get_or_create_patient, hk, hf] at h
      simp only [Except.ok.injEq, Prod.mk.injEq] at h
      obtain ⟨hk1, hdb⟩ := h
      subst hk1; subst hdb
      exact ⟨K, lg, rfl, rfl, rfl, rfl, rfl, rfl, ⟨lg, rfl⟩,
        ⟨mkPatientRow ds K path db.nextPatientKey,
          List.mem_append_right _ (List.mem_singleton_self _), rfl, rfl⟩,
        Or.inl ⟨hf, rfl, rfl⟩⟩

/-- Re-running get_or_create_patient on any state whose patient table is
the output table of a successful run returns the same key and changes no
table. -/
theorem get_or_create_patient_rerun {ds : Dataset} {path : String} {db : DB} {k : Nat}
    {db2 : DB} (h : get_or_create_patient ds path db = .ok (k, db2)) (dbB : DB)
    (hpat : dbB.patients = db2.patients) :
    ∃ dbC, get_or_create_patient ds path dbB = .ok (k, dbC) ∧
      dbC.patients = dbB.patients ∧ dbC.studies = dbB.studies ∧ dbC.series = dbB.series ∧
      dbC.images = dbB.images ∧ dbC.nextPatientKey = dbB.nextPatientKey ∧
      dbC.nextStudyKey = dbB.nextStudyKey ∧ dbC.nextSeriesKey = dbB.nextSeriesKey := by
  obtain ⟨K, lg, hk, _, _, _, _, _, _, _, hbr⟩ := get_or_create_patient_spec h
  rcases hbr with ⟨hf, hpats, hkey⟩ | ⟨r, hf, hkey, hpats⟩
  · have hrow : (fun r => r.patient_id == K) (mkPatientRow ds K path db.nextPatientKey) = true := by
      simp [mkPatientRow]
    have hfB : dbB.patients.find? (fun r => r.patient_id == K) =
        some (mkPatientRow ds K path db.nextPatientKey) := by
      rw [hpat, hpats, List.find?_append, hf]
      simp [List.find?_cons_of_pos, hrow]
    refine ⟨{ dbB with log := dbB.log ++ lg }, ?_, rfl, rfl, rfl, rfl, rfl, rfl, rfl⟩
    simp only [get_or_create_patient, hk, hfB]
    subst hkey
    rfl
  · have hfB : dbB.patients.find? (fun r => r.patient_id == K) = some r := by
      rw [hpat, hpats]; exact hf
    refine ⟨{ dbB with log := dbB.log ++ lg }, ?_, rfl, rfl, rfl, rfl, rfl, rfl, rfl⟩
    simp only [get_or_create_patient, hk, hfB]
    subst hkey
    rfl

/-- Everything get_or_create_study guarantees on success, mirrored from the
patient version, with the inserted row's AccessionNumber fallback and its
log entry exposed. -/
theorem get_or_create_study_spec {ds : Dataset} {ppk : Nat} {path : String} {db : DB}
    {k : Nat} {db2 : DB} (h : get_or_create_study ds ppk path db = .ok (k, db2)) :
    ∃ K lg, studyNaturalKey ds = .ok (K, lg) ∧
      db2.patients = db.patients ∧ db2.series = db.series ∧ db2.images = db.images ∧
      db2.nextPatientKey = db.nextPatientKey ∧ db2.nextSeriesKey = db.nextSeriesKey ∧
      (∃ t, db2.log = db.log ++ t) ∧
      (∃ r, r ∈ db2.studies ∧ r.prkey = k ∧ r.study_instance_uid = K) ∧
      ((db.studies.find? (fun r => r.study_instance_uid == K) = none ∧
          db2.studies = db.studies ++
            [mkStudyRow ds K (accessionOf ds K) path ppk db.nextStudyKey] ∧
          k = db.nextStudyKey ∧
          db2.log = db.log ++ lg ++ accessionLogOf ds K) ∨
        (∃ r, db.studies.find? (fun r => r.study_instance_uid == K) = some r ∧ k = r.prkey ∧
          db2.studies = db.studies)) := by
  cases hk : studyNaturalKey ds with
  | error e => simp only [get_or_create_study, hk] at h; simp at h
  | ok pr =>
    obtain ⟨K, lg⟩ := pr
    cases hf : db.studies.find? (fun r => r.study_instance_uid == K) with
    | some r =>
      simp only [get_or_create_study, hk, hf] at h
      simp only [Except.ok.injEq, Prod.mk.injEq] at h
      obtain ⟨hk1, hdb⟩ := h
      subst hk1; subst hdb
      exact ⟨K, lg, rfl, rfl, rfl, rfl, rfl, rfl, ⟨lg, rfl⟩,
        ⟨r, List.mem_of_find?_eq_some hf, rfl, by simpa using List.find?_some hf⟩,
        Or.inr ⟨r, hf, rfl, rfl⟩⟩
    | none =>
      simp only [get_or_create_study, hk, hf] at h
      simp only [Except.ok.injEq, Prod.mk.injEq] at h
      obtain ⟨hk1, hdb⟩ := h
      subst hk1; subst hdb
      exact ⟨K, lg, rfl, rfl, rfl, rfl, rfl, rfl, ⟨lg ++ accessionLogOf ds K, by simp⟩,
        ⟨mkStudyRow ds K (accessionOf ds K) path ppk db.nextStudyKey,
          List.mem_append_right _ (List.mem_singleton_self _), rfl, rfl⟩,
        Or.inl ⟨hf, rfl, rfl, rfl⟩⟩

/-- Re-running get_or_create_study on any state whose study table is the
output table of a successful run returns the same key and changes no
table. -/
theorem get_or_create_study_rerun {ds : Dataset} {ppk : Nat} {path : String} {db : DB}
    {k : Nat} {db2 : DB} (h : get_or_create_study ds ppk path db = .ok (k, db2))
    (ppk2 : Nat) (dbB : DB) (hst : dbB.studies = db2.studies) :
    ∃ dbC, get_or_create_study ds ppk2 path dbB = .ok (k, dbC) ∧
      dbC.patients = dbB.patients ∧ dbC.studies = dbB.studies ∧ dbC.series = dbB.series ∧
      dbC.images = dbB.images ∧ dbC.nextPatientKey = dbB.nextPatientKey ∧
      dbC.nextStudyKey = dbB.nextStudyKey ∧ dbC.nextSeriesKey = dbB.nextSeriesKey := by
  obtain ⟨K, lg, hk, _, _, _, _, _, _, _, hbr⟩ := get_or_create_study_spec h
  rcases hbr with ⟨hf, hsts, hkey, _⟩ | ⟨r, hf, hkey, hsts⟩
  · have hrow : (fun r => r.study_instance_uid == K)
        (mkStudyRow ds K (accessionOf ds K) path ppk db.nextStudyKey) = true := by
      simp [mkStudyRow]
    have hfB : dbB.studies.find? (fun r => r.study_instance_uid == K) =
        some (mkStudyRow ds K (accessionOf ds K) path ppk db.nextStudyKey) := by
      rw [hst, hsts, List.find?_append, hf]
      simp [List.find?_cons_of_pos, hrow]
    refine ⟨{ dbB with log := dbB.log ++ lg }, ?_, rfl, rfl, rfl, rfl, rfl, rfl, rfl⟩
    simp only [get_or_create_study, hk, hfB]
    subst hkey
    rfl
  · have hfB : dbB.studies.find? (fun r => r.study_instance_uid == K) = some r := by
      rw [hst, hsts]; exact hf
    refine ⟨{ dbB with log := dbB.log ++ lg }, ?_, rfl, rfl, rfl, rfl, rfl, rfl, rfl⟩
    simp only [get_or_create_study, hk, hfB]
    subst hkey
    rfl

/-- Everything get_or_create_series guarantees on success. -/
theorem get_or_create_series_spec {ds : Dataset} {spk : Nat} {path : String} {db : DB}
    {k : Nat} {db2 : DB} (h : get_or_create_series ds spk path db = .ok (k, db2)) :
    ∃ K lg, seriesNaturalKey ds = .ok (K, lg) ∧
      db2.patients = db.patients ∧ db2.studies = db.studies ∧ db2.images = db.images ∧
      db2.nextPatientKey = db.nextPatientKey ∧ db2.nextStudyKey = db.nextStudyKey ∧
      (∃ t, db2.log = db.log ++ t) ∧
      ((db.series.find? (fun r => r.series_instance_uid == K) = none ∧
          db2.series = db.series ++ [mkSeriesRow ds K path spk db.nextSeriesKey] ∧
          k = db.nextSeriesKey) ∨
        (∃ r, db.series.find? (fun r => r.series_instance_uid == K) = some r ∧ k = r.prkey ∧
          db2.series = db.series)) := by
  cases hk : seriesNaturalKey ds with
  | error e => simp only [get_or_create_series, hk] at h; simp at h
  | ok pr =>
    obtain ⟨K, lg⟩ := pr
    cases hf : db.series.find? (fun r => r.series_instance_uid == K) with
    | some r =>
      simp only [get_or_create_series, hk, hf] at h
      simp only [Except.ok.injEq, Prod.mk.injEq] at h
      obtain ⟨hk1, hdb⟩ := h
      subst hk1; subst hdb
      exact ⟨K, lg, rfl, rfl, rfl, rfl, rfl, rfl, ⟨lg, rfl⟩, Or.inr ⟨r, hf, rfl, rfl⟩⟩
    | none =>
      simp only [get_or_create_series, hk, hf] at h
      simp only [Except.ok.injEq, Prod.mk.injEq] at h
      obtain ⟨hk1, hdb⟩ := h
      subst hk1; subst hdb
      exact ⟨K, lg, rfl, rfl, rfl, rfl, rfl, rfl, ⟨lg, rfl⟩, Or.inl ⟨hf, rfl, rfl⟩⟩

/-- Re-running get_or_create_series on any state whose series table is the
output table of a successful run returns the same key and changes no
table. -/
theorem get_or_create_series_rerun {ds : Dataset} {spk : Nat} {path : String} {db : DB}
    {k : Nat} {db2 : DB} (h : get_or_create_series ds spk path db = .ok (k, db2))
    (spk2 : Nat) (dbB : DB) (hse : dbB.series = db2.series) :
    ∃ dbC, get_or_create_series ds spk2 path dbB = .ok (k, dbC) ∧
      dbC.patients = dbB.patients ∧ dbC.studies = dbB.studies ∧ dbC.series = dbB.series ∧
      dbC.images = dbB.images ∧ dbC.nextPatientKey = dbB.nextPatientKey ∧
      dbC.nextStudyKey = dbB.nextStudyKey ∧ dbC.nextSeriesKey = dbB.nextSeriesKey := by
  obtain ⟨K, lg, hk, _, _, _, _, _, _, hbr⟩ := get_or_create_series_spec h
  rcases hbr with ⟨hf, hses, hkey⟩ | ⟨r, hf, hkey, hses⟩
  · have hrow : (fun r => r.series_instance_uid == K)
        (mkSeriesRow ds K path spk db.nextSeriesKey) = true := by
      simp [mkSeriesRow]
    have hfB : dbB.series.find? (fun r => r.series_instance_uid == K) =
        some (mkSeriesRow ds K path spk db.nextSeriesKey) := by
      rw [hse, hses, List.find?_append, hf]
      simp [List.find?_cons_of_pos, hrow]
    refine ⟨{ dbB with log := dbB.log ++ lg }, ?_, rfl, rfl, rfl, rfl, rfl, rfl, rfl⟩
    simp only [get_or_create_series, hk, hfB]
    subst hkey
    rfl
  · have hfB : dbB.series.find? (fun r => r.series_instance_uid == K) = some r := by
      rw [hse, hses]; exact hf
    refine ⟨{ dbB with log := dbB.log ++ lg }, ?_, rfl, rfl, rfl, rfl, rfl, rfl, rfl⟩
    simp only [get_or_create_series, hk, hfB]
    subst hkey
    rfl

/-- save_image_metadata on an empty SOPInstanceUID reduces to a pure log
append. -/
theorem save_image_metadata_eq_empty (ds : Dataset) (pk sk : Nat) (db : DB)
    (hs : get_str (dsGet ds "SOPInstanceUID") = "") :
    save_image_metadata ds pk sk db =
      { db with log := db.log ++ ["SOPInstanceUID empty, cannot save image metadata."] } := by
  simp only [save_image_metadata]
  rw [if_pos hs]

/-- save_image_metadata on a duplicate identifier reduces to a pure log
append (the silent no-op). -/
theorem save_image_metadata_eq_dup (ds : Dataset) (pk sk : Nat) (db : DB)
    (hs : ¬ get_str (dsGet ds "SOPInstanceUID") = "") (r : ImageRow)
    (hf : db.images.find? (fun q => q.sop_instance_uid == get_str (dsGet ds "SOPInstanceUID")) = some r) :
    save_image_metadata ds pk sk db =
      { db with log := db.log ++
          ["Image already exists, no new insert: " ++ get_str (dsGet ds "SOPInstanceUID")] } := by
  simp only [save_image_metadata]
  rw [if_neg hs, hf]

/-- save_image_metadata on a fresh identifier appends exactly the freshly
built row. -/
theorem save_image_metadata_eq_new (ds : Dataset) (pk sk : Nat) (db : DB)
    (hs : ¬ get_str (dsGet ds "SOPInstanceUID") = "")
    (hf : db.images.find? (fun q => q.sop_instance_uid == get_str (dsGet ds "SOPInstanceUID")) = none) :
    save_image_metadata ds pk sk db = { db with images := db.images ++ [mkImageRow ds sk] } := by
  simp only [save_image_metadata]
  rw [if_neg hs, hf]

/-- save_image_metadata never touches the other three tables or the
counters, and only appends to the log. -/
theorem save_image_metadata_frame (ds : Dataset) (pk sk : Nat) (db : DB) :
    (save_image_metadata ds pk sk db).patients = db.patients ∧
    (save_image_metadata ds pk sk db).studies = db.studies ∧
    (save_image_metadata ds pk sk db).series = db.series ∧
    (save_image_metadata ds pk sk db).nextPatientKey = db.nextPatientKey ∧
    (save_image_metadata ds pk sk db).nextStudyKey = db.nextStudyKey ∧
    (save_image_metadata ds pk sk db).nextSeriesKey = db.nextSeriesKey ∧
    (∃ t, (save_image_metadata ds pk sk db).log = db.log ++ t) := by
  by_cases hs : get_str (dsGet ds "SOPInstanceUID") = ""
  · rw [save_image_metadata_eq_empty ds pk sk db hs]
    exact ⟨rfl, rfl, rfl, rfl, rfl, rfl, ⟨_, rfl⟩⟩
  · cases hf : db.images.find? (fun q => q.sop_instance_uid == get_str (dsGet ds "SOPInstanceUID")) with
    | some r =>
      rw [save_image_metadata_eq_dup ds pk sk db hs r hf]
      exact ⟨rfl, rfl, rfl, rfl, rfl, rfl, ⟨_, rfl⟩⟩
    | none =>
      rw [save_image_metadata_eq_new ds pk sk db hs hf]
      exact ⟨rfl, rfl, rfl, rfl, rfl, rfl, ⟨[], (List.append_nil _).symm⟩⟩

/-- save_image_metadata on an empty SOPInstanceUID: no Image row is
touched, an error is logged, and control returns normally. -/
theorem save_image_metadata_empty (ds : Dataset) (pk sk : Nat) (db : DB)
    (hs : get_str (dsGet ds "SOPInstanceUID") = "") :
    (save_image_metadata ds pk sk db).images = db.images ∧
    "SOPInstanceUID empty, cannot save image metadata." ∈ (save_image_metadata ds pk sk db).log := by
  rw [save_image_metadata_eq_empty ds pk sk db hs]
  exact ⟨rfl, List.mem_append_right _ (List.mem_singleton_self _)⟩

/-- A successful ingest decomposes into the four successful stages run on
the Path-extended dataset. -/
theorem ingest_ok_decomp {ds0 : Dataset} {path : String} {db : DB} {pk stk sek : Nat}
    {dbF : DB} (h : ingest ds0 path db = .ok (pk, stk, sek, dbF)) :
    ∃ dbP dbS dbR,
      get_or_create_patient (("Path", PyVal.scalar (.str path)) :: ds0) path db = .ok (pk, dbP) ∧
      get_or_create_study (("Path", PyVal.scalar (.str path)) :: ds0) pk path dbP = .ok (stk, dbS) ∧
      get_or_create_series (("Path", PyVal.scalar (.str path)) :: ds0) stk path dbS = .ok (sek, dbR) ∧
      dbF = save_image_metadata (("Path", PyVal.scalar (.str path)) :: ds0) pk sek dbR := by
  cases hp : get_or_create_patient (("Path", PyVal.scalar (.str path)) :: ds0) path db with
  | error e => simp only [ingest, hp] at h; simp at h
  | ok x =>
    obtain ⟨pk2, dbP⟩ := x
    cases hs : get_or_create_study (("Path", PyVal.scalar (.str path)) :: ds0) pk2 path dbP with
    | error e => simp only [ingest, hp, hs] at h; simp at h
    | ok y =>
      obtain ⟨stk2, dbS⟩ := y
      cases hr : get_or_create_series (("Path", PyVal.scalar (.str path)) :: ds0) stk2 path dbS with
      | error e => simp only [ingest, hp, hs, hr] at h; simp at h
      | ok z =>
        obtain ⟨sek2, dbR⟩ := z
        simp only [ingest, hp, hs, hr] at h
        simp only [Except.ok.injEq, Prod.mk.injEq] at h
        obtain ⟨h1, h2, h3, h4⟩ := h
        subst h1; subst h2; subst h3; subst h4
        exact ⟨dbP, dbS, dbR, rfl, hs, hr, rfl⟩

/-! C5 — no conflict-retry on a uniqueness violation. -/

/-- C5 (code bug): under the racing schedule — the SELECT misses on an
empty store, a concurrent writer commits Patient P1 (prkey 7), and the
resolver's INSERT then hits the uniqueness constraint — the resolver
propagates the violation to its caller instead of retrying the lookup once
and returning the winner's key 7: the source wraps the INSERT in no
handler at all. -/
theorem c5_code_bug :
    get_or_create_patient_interleaved dsC5 "p" dbEmpty dbC5 = .error .uniqueViolation ∧
    (∃ r, r ∈ dbC5.patients ∧ r.patient_id = "P1" ∧ r.prkey = 7) :=
  ⟨by rfl,
   ⟨{ prkey := 7, patient_id := "P1", patient_name := "", patient_birthdate := "",
      patient_sex := "", character_set := "", patient_path := "" },
    List.mem_singleton_self _, rfl, rfl⟩⟩

/-! C8 — the storage directory name. -/

/-- C8 counterexample: on a dataset with no AccessionNumber element at all
(and SOPInstanceUID X), the directory is the literal UNKNOWN_ACCESSION
default of handle_store, not the SOP-identifier fallback X that the claim's
rule computes. -/
theorem c8_counterexample :
    directoryFor dsC8 = .ok "UNKNOWN_ACCESSION" ∧
    specDirectoryFor dsC8 = .ok "X" ∧
    ¬ directoryFor dsC8 = specDirectoryFor dsC8 := by
  refine ⟨by rfl, by rfl, ?_⟩
  intro h
  rw [show directoryFor dsC8 = Except.ok "UNKNOWN_ACCESSION" from rfl,
    show specDirectoryFor dsC8 = Except.ok "X" from rfl] at h
  exact absurd (Except.ok.inj h) (by decide)

/-- C8 amended: the directory name is the AccessionNumber — read with the
literal default UNKNOWN_ACCESSION when the element is absent — stripped of
every character that is not alphanumeric, a dash or an underscore; only
when that sanitized result is empty (which requires the element to be
present) does the name fall back to the dataset's raw SOP instance
identifier. -/
theorem c8_amended :
    (∀ ds : Dataset, dsGet ds "AccessionNumber" = none →
      directoryFor ds = .ok "UNKNOWN_ACCESSION") ∧
    (∀ (ds : Dataset) (v : PyVal), dsGet ds "AccessionNumber" = some v →
      (¬ sanitizeAccession (get_str (some v)) = "" →
        directoryFor ds = .ok (sanitizeAccession (get_str (some v)))) ∧
      (sanitizeAccession (get_str (some v)) = "" →
        directoryFor ds = dsAttrStr ds "SOPInstanceUID")) := by
  constructor
  · intro ds h
    simp only [directoryFor, h, Option.getD_none]
    rfl
  · intro ds v h
    constructor
    · intro h2
      simp only [directoryFor, h, Option.getD_some, if_neg h2]
    · intro h2
      simp only [directoryFor, h, Option.getD_some, if_pos h2]

theorem c8_witness :
    directoryFor dsC8 = .ok "UNKNOWN_ACCESSION" ∧
    directoryFor dsC8b = dsAttrStr dsC8b "SOPInstanceUID" ∧
    dsAttrStr dsC8b "SOPInstanceUID" = .ok "Y" :=
  ⟨c8_amended.1 dsC8 (by rfl),
   (c8_amended.2 dsC8b (PyVal.scalar (.str "###")) (by rfl)).2 (by rfl),
   by rfl⟩

/-! C1 — ingest with an empty SOP instance identifier. -/

/-- C1 counterexample: on a dataset whose SOPInstanceUID is present but
empty, ingest returns success — it does not fail with MissingIdentifier or
any other error — while inserting no Image row. -/
theorem c1_counterexample :
    ingest dsC1 "q" dbEmpty = .ok (0, 0, 0, dbC1) ∧ dbC1.images = [] :=
  ⟨by rfl, by rfl⟩

/-- C1 amended: for every decoded dataset whose SOPInstanceUID string is
empty, a successful ingest inserts no Image row and logs an error, but the
ingest itself returns success rather than failing with MissingIdentifier;
the Patient/Study/Series rows resolved before that point still exist. -/
theorem c1_amended (ds : Dataset) (path : String) (db : DB) (pk stk sek : Nat) (dbF : DB)
    (hing : ingest ds path db = .ok (pk, stk, sek, dbF))
    (hsop : get_str (dsGet ds "SOPInstanceUID") = "") :
    dbF.images = db.images ∧
    "SOPInstanceUID empty, cannot save image metadata." ∈ dbF.log := by
  obtain ⟨dbP, dbS, dbR, hp, hs, hr, hF⟩ := ingest_ok_decomp hing
  have hsop2 : get_str (dsGet (("Path", PyVal.scalar (.str path)) :: ds) "SOPInstanceUID") = "" := by
    rw [sop_pathset ds path]; exact hsop
  obtain ⟨_, _, _, _, _, himP, _, _, _, _, _⟩ := get_or_create_patient_spec hp
  obtain ⟨_, _, _, _, _, himS, _, _, _, _, _⟩ := get_or_create_study_spec hs
  obtain ⟨_, _, _, _, _, himR, _, _, _, _⟩ := get_or_create_series_spec hr
  obtain ⟨himF, hlog⟩ :=
    save_image_metadata_empty (("Path", PyVal.scalar (.str path)) :: ds) pk sek dbR hsop2
  subst hF
  exact ⟨by rw [himF, himR, himS, himP], hlog⟩

theorem c1_witness :
    dbC1.images = dbEmpty.images ∧
    "SOPInstanceUID empty, cannot save image metadata." ∈ dbC1.log :=
  c1_amended dsC1 "q" dbEmpty 0 0 0 dbC1 (by rfl) (by rfl)

/-! C4 — idempotence of ingest. -/

/-- C4 counterexample: for a dataset whose SOPInstanceUID is empty, two
successive ingest calls succeed with the same keys but leave zero Image
rows, not exactly one. -/
theorem c4_counterexample :
    ingest dsC4x "q" dbEmpty = .ok (0, 0, 0, dbC4x1) ∧
    ingest dsC4x "q" dbC4x1 = .ok (0, 0, 0, dbC4x2) ∧
    dbC4x2.images = [] ∧
    ¬ (dbC4x2.images.countP
        (fun r => r.sop_instance_uid == get_str (dsGet dsC4x "SOPInstanceUID"))) = 1 :=
  ⟨by rfl, by rfl, by rfl, by decide⟩

/-- C4 amended: a second ingest of the same dataset and path succeeds,
returns the same Patient, Study and Series keys, and performs no Image
insert at all (the image table is untouched — the duplicate is a silent
no-op, not an error); whenever the dataset's SOPInstanceUID is nonempty
and the store held no row for it beforehand, exactly one Image row for it
exists after the two calls. A dataset with an empty SOPInstanceUID instead
ends with zero Image rows (see the counterexample). -/
theorem c4_amended (ds : Dataset) (path : String) (db : DB) (pk stk sek : Nat) (db1 : DB)
    (h : ingest ds path db = .ok (pk, stk, sek, db1)) :
    ∃ db2, ingest ds path db1 = .ok (pk, stk, sek, db2) ∧
      db2.images = db1.images ∧
      (¬ get_str (dsGet ds "SOPInstanceUID") = "" →
        db.images.countP (fun r => r.sop_instance_uid == get_str (dsGet ds "SOPInstanceUID")) = 0 →
        db1.images.countP (fun r => r.sop_instance_uid == get_str (dsGet ds "SOPInstanceUID")) = 1) := by
  obtain ⟨dbP, dbS, dbR, hp, hs, hr, hF⟩ := ingest_ok_decomp h
  obtain ⟨_, _, _, hPstud, hPser, hPim, _, _, _, _, _⟩ := get_or_create_patient_spec hp
  obtain ⟨_, _, _, hSpat, hSser, hSim, _, _, _, _, _⟩ := get_or_create_study_spec hs
  obtain ⟨_, _, _, hRpat, hRstud, hRim, _, _, _, _⟩ := get_or_create_series_spec hr
  obtain ⟨hFpat, hFstud, hFser, _, _, _, _⟩ :=
    save_image_metadata_frame (("Path", PyVal.scalar (Scalar.str path)) :: ds) pk sek dbR
  have hdb1pat : db1.patients = dbP.patients := by rw [hF, hFpat, hRpat, hSpat]
  have hdb1stud : db1.studies = dbS.studies := by rw [hF, hFstud, hRstud]
  have hdb1ser : db1.series = dbR.series := by rw [hF, hFser]
  have hdb1im : db1.images =
      (save_image_metadata (("Path", PyVal.scalar (Scalar.str path)) :: ds) pk sek dbR).images := by
    rw [hF]
  obtain ⟨dbB1, hcall1, hB1pat, hB1stud, hB1ser, hB1im, _, _, _⟩ :=
    get_or_create_patient_rerun hp db1 hdb1pat
  obtain ⟨dbB2, hcall2, hB2pat, hB2stud, hB2ser, hB2im, _, _, _⟩ :=
    get_or_create_study_rerun hs pk dbB1 (hB1stud.trans hdb1stud)
  obtain ⟨dbB3, hcall3, hB3pat, hB3stud, hB3ser, hB3im, _, _, _⟩ :=
    get_or_create_series_rerun hr stk dbB2 (hB2ser.trans (hB1ser.trans hdb1ser))
  have hB3imAll : dbB3.images = db1.images := by rw [hB3im, hB2im, hB1im]
  have hsop2 : get_str (dsGet (("Path", PyVal.scalar (Scalar.str path)) :: ds) "SOPInstanceUID") =
      get_str (dsGet ds "SOPInstanceUID") := sop_pathset ds path
  refine ⟨save_image_metadata (("Path", PyVal.scalar (Scalar.str path)) :: ds) pk sek dbB3,
    ?_, ?_, ?_⟩
  · simp only [ingest, hcall1, hcall2, hcall3]
  · by_cases hsop : get_str (dsGet (("Path", PyVal.scalar (Scalar.str path)) :: ds) "SOPInstanceUID") = ""
    · rw [(save_image_metadata_empty (("Path", PyVal.scalar (Scalar.str path)) :: ds) pk sek dbB3 hsop).1]
      exact hB3imAll
    · cases hfR : dbR.images.find? (fun q => q.sop_instance_uid ==
          get_str (dsGet (("Path", PyVal.scalar (Scalar.str path)) :: ds) "SOPInstanceUID")) with
      | some r =>
        have hr1 : db1.images = dbR.images := by
          rw [hdb1im,
            save_image_metadata_eq_dup (("Path", PyVal.scalar (Scalar.str path)) :: ds) pk sek dbR hsop r hfR]
        have hfB : dbB3.images.find? (fun q => q.sop_instance_uid ==
            get_str (dsGet (("Path", PyVal.scalar (Scalar.str path)) :: ds) "SOPInstanceUID")) = some r := by
          rw [hB3imAll, hr1]; exact hfR
        rw [save_image_metadata_eq_dup (("Path", PyVal.scalar (Scalar.str path)) :: ds) pk sek dbB3 hsop r hfB]
        exact hB3imAll
      | none =>
        have hr1 : db1.images = dbR.images ++
            [mkImageRow (("Path", PyVal.scalar (Scalar.str path)) :: ds) sek] := by
          rw [hdb1im,
            save_image_metadata_eq_new (("Path", PyVal.scalar (Scalar.str path)) :: ds) pk sek dbR hsop hfR]
        have hrow : (fun q => q.sop_instance_uid ==
            get_str (dsGet (("Path", PyVal.scalar (Scalar.str path)) :: ds) "SOPInstanceUID"))
            (mkImageRow (("Path", PyVal.scalar (Scalar.str path)) :: ds) sek) = true := by
          simp [mkImageRow]
        have hfB : dbB3.images.find? (fun q => q.sop_instance_uid ==
            get_str (dsGet (("Path", PyVal.scalar (Scalar.str path)) :: ds) "SOPInstanceUID")) =
            some (mkImageRow (("Path", PyVal.scalar (Scalar.str path)) :: ds) sek) := by
          rw [hB3imAll, hr1, List.find?_append, hfR]
          simp [List.find?_cons_of_pos, hrow]
        rw [save_image_metadata_eq_dup (("Path", PyVal.scalar (Scalar.str path)) :: ds) pk sek dbB3 hsop _ hfB]
        exact hB3imAll
  · intro hne hc0
    have hne2 : ¬ get_str (dsGet (("Path", PyVal.scalar (Scalar.str path)) :: ds) "SOPInstanceUID") = "" := by
      rw [hsop2]; exact hne
    have hRim2 : dbR.images = db.images := by rw [hRim, hSim, hPim]
    have hfR : dbR.images.find? (fun q => q.sop_instance_uid ==
        get_str (dsGet (("Path", PyVal.scalar (Scalar.str path)) :: ds) "SOPInstanceUID")) = none := by
      rw [hRim2, List.find?_eq_none]
      intro x hx
      have hxz := List.countP_eq_zero.mp hc0 x hx
      simp only [beq_iff_eq, hsop2]
      simpa using hxz
    have hnew : db1.images = db.images ++
        [mkImageRow (("Path", PyVal.scalar (Scalar.str path)) :: ds) sek] := by
      rw [hdb1im,
        save_image_metadata_eq_new (("Path", PyVal.scalar (Scalar.str path)) :: ds) pk sek dbR hne2 hfR]
      simp [hRim2]
    rw [hnew, List.countP_append, hc0]
    simp [List.countP_cons, mkImageRow, hsop2]

theorem c4_witness :
    ∃ db2, ingest dsC4 "q" dbC4a = .ok (0, 0, 0, db2) ∧
      db2.images = dbC4a.images ∧
      (¬ get_str (dsGet dsC4 "SOPInstanceUID") = "" →
        dbEmpty.images.countP
          (fun r => r.sop_instance_uid == get_str (dsGet dsC4 "SOPInstanceUID")) = 0 →
        dbC4a.images.countP
          (fun r => r.sop_instance_uid == get_str (dsGet dsC4 "SOPInstanceUID")) = 1) :=
  c4_amended dsC4 "q" dbEmpty 0 0 0 dbC4a (by rfl)

/-! C6 — the PatientID and AccessionNumber fallbacks. -/

/-- C6: when PatientID extracts to the empty string, the Patient row that
ingest resolves to (and creates, when absent) carries the natural key
UNKNOWN_PATIENT_ followed by the dataset's SOPInstanceUID; and when
AccessionNumber extracts to the empty string, the Study row newly created
by ingest stores AccessionNumber equal to the (possibly synthesized)
StudyInstanceUID, with the substitution logged. -/
theorem c6_fallbacks (ds : Dataset) (path : String) (db : DB) (pk stk sek : Nat) (dbF : DB)
    (sop : String)
    (hing : ingest ds path db = .ok (pk, stk, sek, dbF))
    (hsop : dsAttrStr ds "SOPInstanceUID" = .ok sop) :
    (get_str (dsGet ds "PatientID") = "" →
      ∃ r, r ∈ dbF.patients ∧ r.prkey = pk ∧ r.patient_id = "UNKNOWN_PATIENT_" ++ sop) ∧
    (get_str (dsGet ds "AccessionNumber") = "" →
      (∀ r ∈ db.studies, ¬ r.study_instance_uid = studyKeyOf ds sop) →
      (∃ r, r ∈ dbF.studies ∧ r.prkey = stk ∧ r.study_instance_uid = studyKeyOf ds sop ∧
        r.accession_number = studyKeyOf ds sop) ∧
      ("AccessionNumber empty, using StudyInstanceUID as fallback: " ++ studyKeyOf ds sop)
        ∈ dbF.log) := by
  obtain ⟨dbP, dbS, dbR, hp, hs, hr, hF⟩ := ingest_ok_decomp hing
  obtain ⟨K1, lg1, hk1, hPstud, hPser, hPim, _, _, _, hProw, _⟩ := get_or_create_patient_spec hp
  obtain ⟨K2, lg2, hk2, hSpat, hSser, hSim, _, _, _, hSrow, hSbr⟩ := get_or_create_study_spec hs
  obtain ⟨K3, lg3, hk3, hRpat, hRstud, hRim, _, _, hRlog, _⟩ := get_or_create_series_spec hr
  obtain ⟨hFpat, hFstud, hFser, _, _, _, hFlog⟩ :=
    save_image_metadata_frame (("Path", PyVal.scalar (Scalar.str path)) :: ds) pk sek dbR
  have hFpatAll : dbF.patients = dbP.patients := by rw [hF, hFpat, hRpat, hSpat]
  have hFstudAll : dbF.studies = dbS.studies := by rw [hF, hFstud, hRstud]
  constructor
  · intro hpid
    have hkey : patientNaturalKey ds =
        .ok ("UNKNOWN_PATIENT_" ++ sop, ["PatientID empty, using fallback: UNKNOWN_PATIENT_" ++ sop]) := by
      simp [patientNaturalKey, hpid, hsop]
    rw [patientNaturalKey_pathset ds path, hkey] at hk1
    simp only [Except.ok.injEq, Prod.mk.injEq] at hk1
    obtain ⟨hK1, _⟩ := hk1
    obtain ⟨r, hrmem, hrk, hrid⟩ := hProw
    refine ⟨r, ?_, hrk, ?_⟩
    · rw [hFpatAll]; exact hrmem
    · rw [hrid]; exact hK1.symm
  · intro hacc hnew
    have hsk : ∃ lgx, studyNaturalKey ds = .ok (studyKeyOf ds sop, lgx) := by
      by_cases hsu : get_str (dsGet ds "StudyInstanceUID") = ""
      · exact ⟨["StudyInstanceUID empty, using fallback: UNKNOWN_STUDY_" ++ sop],
          by simp [studyNaturalKey, studyKeyOf, hsu, hsop]⟩
      · exact ⟨[], by simp [studyNaturalKey, studyKeyOf, hsu]⟩
    obtain ⟨lgx, hsk⟩ := hsk
    rw [studyNaturalKey_pathset ds path, hsk] at hk2
    simp only [Except.ok.injEq, Prod.mk.injEq] at hk2
    obtain ⟨hK2, hlg2⟩ := hk2
    have hfnone : dbP.studies.find? (fun r => r.study_instance_uid == K2) = none := by
      rw [hPstud, List.find?_eq_none]
      intro x hx
      simp only [beq_iff_eq]
      rw [← hK2]
      exact hnew x hx
    rcases hSbr with ⟨_, hstudies, hstk, hslog⟩ | ⟨r, hfs, _, _⟩
    · have haccval : accessionOf ds K2 = K2 := by
        simp [accessionOf, hacc]
      have haccval2 :
          accessionOf (("Path", PyVal.scalar (Scalar.str path)) :: ds) K2 = K2 := by
        rw [accessionOf_pathset ds path K2]; exact haccval
      have halog :
          accessionLogOf (("Path", PyVal.scalar (Scalar.str path)) :: ds) K2 =
            ["AccessionNumber empty, using StudyInstanceUID as fallback: " ++ K2] := by
        rw [accessionLogOf_pathset ds path K2]
        simp [accessionLogOf, hacc]
      constructor
      · refine ⟨mkStudyRow (("Path", PyVal.scalar (Scalar.str path)) :: ds) K2
          (accessionOf (("Path", PyVal.scalar (Scalar.str path)) :: ds) K2) path pk dbP.nextStudyKey,
          ?_, ?_, ?_, ?_⟩
        · rw [hFstudAll, hstudies]
          exact List.mem_append_right _ (List.mem_singleton_self _)
        · show dbP.nextStudyKey = stk
          exact hstk.symm
        · show K2 = studyKeyOf ds sop
          exact hK2.symm
        · show accessionOf (("Path", PyVal.scalar (Scalar.str path)) :: ds) K2 = studyKeyOf ds sop
          rw [haccval2]; exact hK2.symm
      · have hmemS :
            ("AccessionNumber empty, using StudyInstanceUID as fallback: " ++ studyKeyOf ds sop)
              ∈ dbS.log := by
          rw [hslog, halog, hK2]
          exact List.mem_append_right _ (List.mem_singleton_self _)
        obtain ⟨t1, ht1⟩ := hRlog
        obtain ⟨t2, ht2⟩ := hFlog
        have : dbF.log = dbS.log ++ t1 ++ t2 := by rw [hF, ht2, ht1]
        rw [this]
        exact List.mem_append_left _ (List.mem_append_left _ hmemS)
    · rw [hfnone] at hfs
      simp at hfs

theorem c6_witness :
    (∃ r, r ∈ dbC6r.patients ∧ r.prkey = 0 ∧ r.patient_id = "UNKNOWN_PATIENT_" ++ "U6") ∧
    ("AccessionNumber empty, using StudyInstanceUID as fallback: " ++ studyKeyOf dsC6 "U6")
      ∈ dbC6r.log := by
  have h := c6_fallbacks dsC6 "q" dbEmpty 0 0 0 dbC6r "U6" (by rfl) (by rfl)
  exact ⟨h.1 (by rfl),
    (h.2 (by rfl) (fun r hr => absurd hr (List.not_mem_nil r))).2⟩

end DicomViewer
